import Mathlib

/-!
# Verification of the credit-system decision engine

Shallow embedding of the decision core of `app/logic.py` (installment
normalization, affordability calculation, tiered decision policy and
suggestion generation) and of the reconciliation rule of `app/main.py`
(`_policy_decision_from_dsr` and the `final_display` chain used by
`customer_applications` and `customer_detail`).

Conventions of the embedding:
* Python floats are modelled as rationals (`ℚ`); the numeric claims are
  about the exact threshold arithmetic, not about IEEE-754 rounding.
* Python `None` is modelled by `Option`; Python truthiness on strings
  (where `None` and `""` are falsy) is modelled explicitly where used.
* The requested installment period reaching `_pick_installment_period`
  is modelled as `Option Int`: `none` stands for an input that is absent
  or that `_to_int_or_none` failed to parse; `some r` for a parsed
  integer `r` (Python `int(...)` succeeded).
* The `explanation` f-strings of `process_customer_row` format numbers
  for display only and are not modelled; the `suggestions` list is
  modelled as the list built by the source (the source joins it with a
  newline for storage).
-/

namespace Credit

/-- Allowed installment periods by asset type (`installment_options` in
`app/logic.py`); `none` models a key that is absent from the dict, so a
caller's `.get(key, default)` becomes `(installment_options key).getD default`. -/
def installment_options (asset_type : String) : Option (List Int) :=
  if asset_type = "Car" then some [36, 48, 60, 72, 84]
  else if asset_type = "House" then some [120, 180, 240, 300]
  else if asset_type = "Equipment" then some [12, 24, 36, 48, 60]
  else none

/-- ASCII model of Python `str.strip()`: drop leading and trailing
whitespace characters (via `List Char` so that concrete instances reduce
in the kernel). -/
def pyStrip (s : String) : String :=
  String.mk (((s.toList.dropWhile Char.isWhitespace).reverse.dropWhile Char.isWhitespace).reverse)

/-- ASCII model of Python `str.title()`: a letter that follows a
non-letter is upper-cased, a letter that follows a letter is lower-cased,
other characters pass through. -/
def pyTitle (s : String) : String :=
  String.mk ((s.toList.foldl
    (fun acc c =>
      if c.isAlpha then (acc.1 ++ [if acc.2 then c.toLower else c.toUpper], true)
      else (acc.1 ++ [c], false))
    (([] : List Char), false)).1)

/-- `_normalize_asset_type` of `app/logic.py`: `None` becomes `"Car"`,
anything else is trimmed and title-cased. -/
def normalize_asset_type : Option String → String
  | none => "Car"
  | some v => pyTitle (pyStrip v)

/-- Python `min(allowed, key=lambda x: abs(x - requested))` restricted to
a nonempty list `best :: rest`: the fold keeps the FIRST element attaining
the minimal distance, exactly as Python `min` breaks ties. -/
def min_by_dist (requested : Int) : Int → List Int → Int
  | best, [] => best
  | best, x :: xs =>
      min_by_dist requested
        (if (x - requested).natAbs < (best - requested).natAbs then x else best) xs

/-- The `min(allowed, key=...)` call of `_pick_installment_period`.
Python raises on an empty list; the `0` default is unreachable because
every list fed to it is nonempty. -/
def nearest_allowed (allowed : List Int) (requested : Int) : Int :=
  match allowed with
  | [] => 0
  | a :: rest => min_by_dist requested a rest

/-- The lookup `installment_options.get(asset_type, [36])` performed by
`_pick_installment_period`. -/
def allowed_periods (asset_type : String) : List Int :=
  (installment_options asset_type).getD [36]

/-- `_pick_installment_period` of `app/logic.py`.  The two Python
falsiness guards (`if not requested_months` on the raw value and
`if not requested` on the parsed value) collapse, on an `Option Int`
input, to: absent/unparseable (`none`) or parsed to `0`. -/
def pick_installment_period (asset_type : String) (requested_months : Option Int) : Int :=
  let allowed := allowed_periods asset_type
  match requested_months with
  | none => allowed.headI
  | some requested =>
      if requested = 0 then allowed.headI
      else if requested ∈ allowed then requested
      else nearest_allowed allowed requested

/-- The applicant fields read by `process_customer_row`. -/
structure ApplicantRow where
  customer_id : String
  name : String
  gender : String
  age : Int
  job_type : String
  credit_history : String
  financing_type : String
  income : ℚ
  expenses : ℚ
  existing_loans : ℚ
  asset_value : ℚ
  down_payment : ℚ
  asset_type : Option String
  installment_period : Option Int

/-- `profit_rate = 0.10` in `process_customer_row`. -/
def profit_rate : ℚ := 1 / 10

/-- `asset_type_norm = _normalize_asset_type(row["asset_type"])`. -/
def asset_type_norm (row : ApplicantRow) : String :=
  normalize_asset_type row.asset_type

/-- `months = _pick_installment_period(asset_type_norm, requested_months)`. -/
def months (row : ApplicantRow) : Int :=
  pick_installment_period (asset_type_norm row) row.installment_period

/-- `loan_amount = asset_value - down_payment`. -/
def loan_amount (row : ApplicantRow) : ℚ :=
  row.asset_value - row.down_payment

/-- `total_cost = loan_amount * (1 + profit_rate * (months / 12))`. -/
def total_cost (row : ApplicantRow) : ℚ :=
  loan_amount row * (1 + profit_rate * ((months row : ℚ) / 12))

/-- `monthly_installment = total_cost / months` (the divisor is never
zero: `pick_installment_period` only returns members of the allowed
lists, all positive). -/
def monthly_installment (row : ApplicantRow) : ℚ :=
  total_cost row / (months row : ℚ)

/-- `dsr = (existing_loans + monthly_installment) / income if income > 0 else 1.0`. -/
def dsr (row : ApplicantRow) : ℚ :=
  if row.income > 0 then (row.existing_loans + monthly_installment row) / row.income else 1

/-- The suggestion list built in the `Review` branch of
`process_customer_row`, in source order. -/
def review_suggestions (row : ApplicantRow) : List String :=
  let s1 := ["Consider increasing your down payment to reduce the monthly installment."]
  let s2 := if row.existing_loans > 0
    then s1 ++ ["Pay off some existing loans to lower your total obligations."] else s1
  let s3 := if row.expenses > (1 / 2 : ℚ) * row.income
    then s2 ++ ["Try to reduce your monthly expenses."] else s2
  let allowed := (installment_options (asset_type_norm row)).getD [months row]
  let longer_terms := allowed.filter (fun m => months row < m)
  if longer_terms ≠ [] then
    s3 ++ ["Consider extending the installment period to "
        ++ toString longer_terms.headI ++ " months."]
  else s3

/-- Python `max` over a nonempty list (`max(installment_options.get(...))`);
the `0` default is unreachable because every list fed to it is nonempty. -/
def list_max : List Int → Int
  | [] => 0
  | a :: rest => rest.foldl max a

/-- The suggestion list built in the `Rejected` branch of
`process_customer_row`, in source order. -/
def rejected_suggestions (row : ApplicantRow) : List String :=
  let s1 := if row.existing_loans > 0
    then ["Pay off existing loans to reduce your DSR."] else []
  let s2 := if row.income < (row.existing_loans + monthly_installment row) / (58 / 100 : ℚ)
    then s1 ++ ["Increase your net monthly income."] else s1
  let s3 := s2 ++ ["Increase your down payment to reduce the financed amount."]
  let longest := list_max ((installment_options (asset_type_norm row)).getD [months row])
  if months row < longest
    then s3 ++ ["Consider extending the installment period to " ++ toString longest ++ " months."]
    else s3

/-- The three-tier decision assignment of `process_customer_row`. -/
def decision (row : ApplicantRow) : String :=
  if dsr row ≤ 45 / 100 then "Accepted"
  else if dsr row ≤ 60 / 100 then "Review"
  else "Rejected"

/-- The suggestion list of `process_customer_row` (empty in the
`Accepted` branch). -/
def suggestions (row : ApplicantRow) : List String :=
  if dsr row ≤ 45 / 100 then []
  else if dsr row ≤ 60 / 100 then review_suggestions row
  else rejected_suggestions row

/-- The dict returned by `process_customer_row` (`explanation` omitted:
it is display formatting only). -/
structure EvalResult where
  customer_id : String
  name : String
  gender : String
  age : Int
  job_type : String
  income : ℚ
  expenses : ℚ
  credit_history : String
  existing_loans : ℚ
  financing_type : String
  asset_type : String
  asset_value : ℚ
  down_payment : ℚ
  installment_period : Int
  monthly_installment : ℚ
  total_cost : ℚ
  dsr : ℚ
  decision : String
  suggestions : List String

/-- `process_customer_row` of `app/logic.py`, assembled from the
line-for-line definitions above. -/
def process_customer_row (row : ApplicantRow) : EvalResult :=
  { customer_id := row.customer_id
    name := row.name
    gender := row.gender
    age := row.age
    job_type := row.job_type
    income := row.income
    expenses := row.expenses
    credit_history := row.credit_history
    existing_loans := row.existing_loans
    financing_type := row.financing_type
    asset_type := asset_type_norm row
    asset_value := row.asset_value
    down_payment := row.down_payment
    installment_period := months row
    monthly_installment := monthly_installment row
    total_cost := total_cost row
    dsr := dsr row
    decision := decision row
    suggestions := suggestions row }

/-- The persisted fields of a `Customer` record that the read-time
reconciliation consumes (`app/models.py`: `dsr`, `decision`,
`ml_final_decision` are nullable columns, `manual_decision` explicitly so). -/
structure CustomerRecord where
  dsr : Option ℚ
  decision : Option String
  ml_final_decision : Option String
  manual_decision : Option String

/-- `_policy_decision_from_dsr` of `app/main.py`. -/
def policy_decision_from_dsr (dsr : ℚ) : String :=
  if dsr > 60 / 100 then "Rejected"
  else if dsr ≤ 45 / 100 then "Accepted"
  else "Review"

/-- Python `a or b` on optional strings: `None` and `""` are falsy. -/
def py_str_or (a b : Option String) : Option String :=
  match a with
  | none => b
  | some s => if s = "" then b else some s

/-- The display reconciliation of `customer_applications` and
`customer_detail` in `app/main.py`:
`policy_final = _policy_decision_from_dsr(float(c.dsr or 0.0))` and
`final_display = c.manual_decision or policy_final or c.ml_final_decision or c.decision`.
`float(c.dsr or 0.0)` maps an absent `dsr` to `0.0` (and a stored `0.0`
to itself), i.e. `getD 0`. -/
def final_display (c : CustomerRecord) : Option String :=
  let policy_final := policy_decision_from_dsr (c.dsr.getD 0)
  py_str_or c.manual_decision
    (py_str_or (some policy_final) (py_str_or c.ml_final_decision c.decision))

/-- The reconciliation precedence exactly as the specification words it
(spec §4.4 / claim C1; written from the spec to be COMPARED with
`final_display`, which is the code): the first present value among
(1) a non-empty `manual_decision`, used verbatim; (2) the policy decision
recomputed from the persisted `dsr` when it is present; (3) only if the
`dsr` is absent, the `ml_final_decision`; (4) otherwise the stored rule
decision. -/
def finalize_spec (manual : Option String) (dsrOpt : Option ℚ)
    (ml rule : Option String) : Option String :=
  if manual.getD "" ≠ "" then manual
  else
    match dsrOpt with
    | some d => some (policy_decision_from_dsr d)
    | none =>
      match ml with
      | some m => some m
      | none => rule

/-! ## Helper lemmas -/

lemma min_by_dist_mem (req : Int) (l : List Int) :
    ∀ best, min_by_dist req best l = best ∨ min_by_dist req best l ∈ l := by
  induction l with
  | nil => exact fun best => Or.inl rfl
  | cons x xs ih =>
    intro best
    rw [min_by_dist]
    by_cases h : (x - req).natAbs < (best - req).natAbs
    · rw [if_pos h]
      rcases ih x with h1 | h1
      · exact Or.inr (by rw [h1]; exact List.mem_cons_self x xs)
      · exact Or.inr (List.mem_cons_of_mem x h1)
    · rw [if_neg h]
      rcases ih best with h1 | h1
      · exact Or.inl h1
      · exact Or.inr (List.mem_cons_of_mem x h1)

lemma min_by_dist_le_key (req : Int) (l : List Int) :
    ∀ best, ∀ a ∈ best :: l,
      (min_by_dist req best l - req).natAbs ≤ (a - req).natAbs := by
  induction l with
  | nil =>
    intro best a ha
    rw [List.mem_singleton] at ha
    subst ha
    rw [min_by_dist]
  | cons x xs ih =>
    intro best a ha
    rw [min_by_dist]
    by_cases hc : (x - req).natAbs < (best - req).natAbs
    · rw [if_pos hc]
      rcases List.mem_cons.mp ha with h | h
      · rw [h]
        have h1 := ih x x (List.mem_cons_self x xs)
        omega
      · exact ih x a h
    · rw [if_neg hc]
      rcases List.mem_cons.mp ha with h | h
      · rw [h]
        exact ih best best (List.mem_cons_self best xs)
      · rcases List.mem_cons.mp h with h2 | h2
        · rw [h2]
          have h1 := ih best best (List.mem_cons_self best xs)
          omega
        · exact ih best a (List.mem_cons.mpr (Or.inr h2))

lemma min_by_dist_of_not_lt (req : Int) (l : List Int) :
    ∀ best, (∀ x ∈ l, ¬ (x - req).natAbs < (best - req).natAbs) →
      min_by_dist req best l = best := by
  induction l with
  | nil => intro best _; rw [min_by_dist]
  | cons x xs ih =>
    intro best h
    rw [min_by_dist, if_neg (h x (List.mem_cons_self x xs))]
    exact ih best (fun y hy => h y (List.mem_cons_of_mem x hy))

lemma min_by_dist_sorted_tie (req : Int) (l : List Int) :
    ∀ best, List.Sorted (· ≤ ·) (best :: l) →
      ∀ a ∈ best :: l,
        (a - req).natAbs = (min_by_dist req best l - req).natAbs →
          min_by_dist req best l ≤ a := by
  induction l with
  | nil =>
    intro best _ a ha _
    rw [List.mem_singleton] at ha
    subst ha
    rw [min_by_dist]
  | cons x xs ih =>
    intro best hs a ha hk
    rw [min_by_dist] at hk ⊢
    have hbx : best ≤ x := (List.sorted_cons.mp hs).1 x (List.mem_cons_self x xs)
    have hsx : List.Sorted (· ≤ ·) (x :: xs) := (List.sorted_cons.mp hs).2
    have hsb : List.Sorted (· ≤ ·) (best :: xs) := by
      rw [List.sorted_cons]
      exact ⟨fun b hb => (List.sorted_cons.mp hs).1 b (List.mem_cons_of_mem x hb),
        (List.sorted_cons.mp hsx).2⟩
    by_cases hc : (x - req).natAbs < (best - req).natAbs
    · rw [if_pos hc] at hk ⊢
      rcases List.mem_cons.mp ha with h | h
      · rw [h] at hk
        have h1 := min_by_dist_le_key req xs x x (List.mem_cons_self x xs)
        omega
      · exact ih x hsx a h hk
    · rw [if_neg hc] at hk ⊢
      rcases List.mem_cons.mp ha with h | h
      · rw [h] at hk ⊢
        exact ih best hsb best (List.mem_cons_self best xs) hk
      · rcases List.mem_cons.mp h with h2 | h2
        · rw [h2] at hk ⊢
          have h1 := min_by_dist_le_key req xs best best (List.mem_cons_self best xs)
          have hm := ih best hsb best (List.mem_cons_self best xs) (by omega)
          omega
        · exact ih best hsb a (List.mem_cons.mpr (Or.inr h2)) hk

lemma sorted_headI_le (l : List Int) (hs : List.Sorted (· ≤ ·) l) :
    ∀ a ∈ l, l.headI ≤ a := by
  cases l with
  | nil => intro a ha; simp at ha
  | cons b xs =>
    intro a ha
    rcases List.mem_cons.mp ha with h | h
    · rw [h]; simp [List.headI]
    · exact (List.sorted_cons.mp hs).1 a h

lemma foldl_max_le (l : List Int) :
    ∀ b, b ≤ l.foldl max b ∧ ∀ a ∈ l, a ≤ l.foldl max b := by
  induction l with
  | nil => intro b; exact ⟨le_refl b, by simp⟩
  | cons x xs ih =>
    intro b
    constructor
    · exact le_trans (le_max_left b x) (ih (max b x)).1
    · intro a ha
      rcases List.mem_cons.mp ha with h | h
      · rw [h]
        exact le_trans (le_max_right b x) (ih (max b x)).1
      · exact (ih (max b x)).2 a h

lemma list_max_le (l : List Int) (h : l ≠ []) : ∀ a ∈ l, a ≤ list_max l := by
  cases l with
  | nil => exact absurd rfl h
  | cons b xs =>
    intro a ha
    rw [list_max]
    rcases List.mem_cons.mp ha with h1 | h1
    · rw [h1]; exact (foldl_max_le xs b).1
    · exact (foldl_max_le xs b).2 a h1

lemma allowed_periods_eq (t : String) :
    allowed_periods t = [36, 48, 60, 72, 84] ∨ allowed_periods t = [120, 180, 240, 300] ∨
    allowed_periods t = [12, 24, 36, 48, 60] ∨ allowed_periods t = [36] := by
  unfold allowed_periods installment_options
  split_ifs <;> simp

lemma allowed_periods_sorted (t : String) : List.Sorted (· ≤ ·) (allowed_periods t) := by
  rcases allowed_periods_eq t with h | h | h | h <;> rw [h] <;> decide

lemma allowed_periods_pos (t : String) : ∀ a ∈ allowed_periods t, 0 < a := by
  rcases allowed_periods_eq t with h | h | h | h <;> rw [h] <;> decide

lemma allowed_periods_ne_nil (t : String) : allowed_periods t ≠ [] := by
  rcases allowed_periods_eq t with h | h | h | h <;> rw [h] <;> simp

lemma headI_mem (l : List Int) (h : l ≠ []) : l.headI ∈ l := by
  cases l with
  | nil => exact absurd rfl h
  | cons a rest => exact List.mem_cons_self a rest

lemma nearest_allowed_mem (l : List Int) (h : l ≠ []) (r : Int) :
    nearest_allowed l r ∈ l := by
  cases l with
  | nil => exact absurd rfl h
  | cons a rest =>
    rcases min_by_dist_mem r rest a with h1 | h1
    · exact List.mem_cons.mpr (Or.inl h1)
    · exact List.mem_cons_of_mem a h1

lemma nearest_allowed_le (l : List Int) (r : Int) :
    ∀ a ∈ l, (nearest_allowed l r - r).natAbs ≤ (a - r).natAbs := by
  cases l with
  | nil => intro a ha; simp at ha
  | cons b rest => exact min_by_dist_le_key r rest b

lemma nearest_allowed_tie (l : List Int) (hs : List.Sorted (· ≤ ·) l) (r : Int) :
    ∀ a ∈ l, (a - r).natAbs = (nearest_allowed l r - r).natAbs →
      nearest_allowed l r ≤ a := by
  cases l with
  | nil => intro a ha; simp at ha
  | cons b rest => exact min_by_dist_sorted_tie r rest b hs

lemma nearest_allowed_head (b : Int) (rest : List Int)
    (hs : List.Sorted (· ≤ ·) (b :: rest)) (r : Int) (hr : r ≤ b) :
    nearest_allowed (b :: rest) r = b := by
  have : ∀ x ∈ rest, ¬ (x - r).natAbs < (b - r).natAbs := by
    intro x hx
    have hbx : b ≤ x := (List.sorted_cons.mp hs).1 x hx
    omega
  exact min_by_dist_of_not_lt r rest b this

lemma pick_mem (t : String) (req : Option Int) :
    pick_installment_period t req ∈ allowed_periods t := by
  cases req with
  | none => exact headI_mem _ (allowed_periods_ne_nil t)
  | some r =>
    show (if r = 0 then (allowed_periods t).headI
      else if r ∈ allowed_periods t then r
      else nearest_allowed (allowed_periods t) r) ∈ allowed_periods t
    split_ifs with h0 hm
    · exact headI_mem _ (allowed_periods_ne_nil t)
    · exact hm
    · exact nearest_allowed_mem _ (allowed_periods_ne_nil t) r

lemma pick_pos (t : String) (req : Option Int) :
    0 < pick_installment_period t req :=
  allowed_periods_pos t _ (pick_mem t req)

lemma months_pos (row : ApplicantRow) : 0 < months row :=
  pick_pos _ _

lemma policy_ne_empty (d : ℚ) : policy_decision_from_dsr d ≠ "" := by
  unfold policy_decision_from_dsr
  split_ifs <;> decide

lemma final_display_manual_none (c : CustomerRecord)
    (h : c.manual_decision = none ∨ c.manual_decision = some "") :
    final_display c = some (policy_decision_from_dsr (c.dsr.getD 0)) := by
  rcases h with h | h <;>
    simp [final_display, py_str_or, h, policy_ne_empty]

lemma decision_eq_policy (row : ApplicantRow) :
    decision row = policy_decision_from_dsr (dsr row) := by
  unfold decision policy_decision_from_dsr
  split_ifs <;> first | rfl | linarith

lemma decision_accepted_iff (row : ApplicantRow) :
    decision row = "Accepted" ↔ dsr row ≤ 45 / 100 := by
  unfold decision
  split_ifs with h1 h2
  · exact iff_of_true rfl h1
  · exact iff_of_false (by decide) h1
  · exact iff_of_false (by decide) h1

lemma decision_review_iff (row : ApplicantRow) :
    decision row = "Review" ↔ (45 / 100 < dsr row ∧ dsr row ≤ 60 / 100) := by
  unfold decision
  split_ifs with h1 h2
  · exact iff_of_false (by decide) (by rintro ⟨hc, _⟩; linarith)
  · exact iff_of_true rfl ⟨not_le.mp h1, h2⟩
  · exact iff_of_false (by decide) (by rintro ⟨_, hc⟩; exact h2 hc)

lemma decision_rejected_iff (row : ApplicantRow) :
    decision row = "Rejected" ↔ 60 / 100 < dsr row := by
  unfold decision
  split_ifs with h1 h2
  · exact iff_of_false (by decide) (by intro hc; linarith)
  · exact iff_of_false (by decide) (by intro hc; linarith)
  · exact iff_of_true rfl (not_le.mp h2)

lemma options_sorted (t : String) (l : List Int)
    (h : installment_options t = some l) : List.Sorted (· ≤ ·) l := by
  unfold installment_options at h
  split_ifs at h
  all_goals injection h with h
  all_goals rw [← h]
  all_goals decide

lemma options_ne_nil (t : String) (l : List Int)
    (h : installment_options t = some l) : l ≠ [] := by
  unfold installment_options at h
  split_ifs at h
  all_goals injection h with h
  all_goals rw [← h]
  all_goals simp

/-! ## Claims -/

/-- C2: the evaluation path (`process_customer_row`) and the
reconciliation path (`_policy_decision_from_dsr`) assign the same
three-tier decision with inclusive boundaries (Accepted iff dsr ≤ 0.45,
Review iff 0.45 < dsr ≤ 0.60, Rejected iff dsr > 0.60); dsr = 0.45 gives
Accepted, 0.60 gives Review, 0.6000001 gives Rejected; and with no
manual decision and dsr = 0.50 the displayed decision is Review even if
the stored rule decision was "Accepted". -/
theorem C2_decision_tiers :
    (∀ row : ApplicantRow,
      (process_customer_row row).decision =
        policy_decision_from_dsr (process_customer_row row).dsr ∧
      ((process_customer_row row).decision = "Accepted" ↔
        (process_customer_row row).dsr ≤ 45 / 100) ∧
      ((process_customer_row row).decision = "Review" ↔
        (45 / 100 < (process_customer_row row).dsr ∧
          (process_customer_row row).dsr ≤ 60 / 100)) ∧
      ((process_customer_row row).decision = "Rejected" ↔
        60 / 100 < (process_customer_row row).dsr)) ∧
    policy_decision_from_dsr (45 / 100) = "Accepted" ∧
    policy_decision_from_dsr (60 / 100) = "Review" ∧
    policy_decision_from_dsr (6000001 / 10000000) = "Rejected" ∧
    final_display { dsr := some (1 / 2), decision := some "Accepted",
                    ml_final_decision := none, manual_decision := none } = some "Review" := by
  refine ⟨fun row => ⟨decision_eq_policy row, decision_accepted_iff row,
      decision_review_iff row, decision_rejected_iff row⟩, ?_, ?_, ?_, ?_⟩
  · unfold policy_decision_from_dsr
    rw [if_neg (by norm_num), if_pos (by norm_num)]
  · unfold policy_decision_from_dsr
    rw [if_neg (by norm_num), if_neg (by norm_num)]
  · unfold policy_decision_from_dsr
    rw [if_pos (by norm_num)]
  · rw [final_display_manual_none _ (Or.inl rfl)]
    unfold policy_decision_from_dsr
    rw [if_neg (by norm_num), if_neg (by norm_num)]

/-- C2 witness: the two paths agree on a concrete applicant. -/
theorem C2_decision_tiers_witness :
    (process_customer_row
        ⟨"c1", "n", "g", 30, "j", "h", "f", 1000, 300, 0, 1000, 100, some "Car", some 48⟩).decision =
      policy_decision_from_dsr
        (process_customer_row
          ⟨"c1", "n", "g", 30, "j", "h", "f", 1000, 300, 0, 1000, 100, some "Car", some 48⟩).dsr :=
  (C2_decision_tiers.1 _).1

/-- C3: the evaluation computes loan_amount = asset_value − down_payment,
total_cost = loan_amount · (1 + 0.10 · installment_period / 12),
monthly_installment = total_cost / installment_period; when income > 0,
dsr = (existing_loans + monthly_installment) / income, and when
income ≤ 0, dsr is exactly 1.0 and the decision is Rejected. -/
theorem C3_affordability (row : ApplicantRow) :
    loan_amount row = row.asset_value - row.down_payment ∧
    (process_customer_row row).total_cost =
      (row.asset_value - row.down_payment) *
        (1 + (1 / 10 : ℚ) * (((process_customer_row row).installment_period : ℚ) / 12)) ∧
    (process_customer_row row).monthly_installment =
      (process_customer_row row).total_cost /
        ((process_customer_row row).installment_period : ℚ) ∧
    (0 < row.income →
      (process_customer_row row).dsr =
        (row.existing_loans + (process_customer_row row).monthly_installment) / row.income) ∧
    (row.income ≤ 0 →
      (process_customer_row row).dsr = 1 ∧
        (process_customer_row row).decision = "Rejected") := by
  refine ⟨rfl, rfl, rfl, fun h => ?_, fun h => ?_⟩
  · show dsr row = (row.existing_loans + monthly_installment row) / row.income
    rw [dsr, if_pos h]
  · have hd : dsr row = 1 := by rw [dsr, if_neg (not_lt.mpr h)]
    refine ⟨hd, ?_⟩
    show decision row = "Rejected"
    rw [decision, hd, if_neg (by norm_num), if_neg (by norm_num)]

/-- C3 witness: a concrete applicant with non-positive income gets
dsr = 1 and a Rejected decision. -/
theorem C3_affordability_witness :
    (process_customer_row
        ⟨"c3", "n", "g", 30, "j", "h", "f", -5, 300, 0, 1000, 100, some "Car", some 48⟩).dsr = 1 ∧
    (process_customer_row
        ⟨"c3", "n", "g", 30, "j", "h", "f", -5, 300, 0, 1000, 100, some "Car", some 48⟩).decision =
      "Rejected" :=
  (C3_affordability _).2.2.2.2 (by norm_num)

/-- C9: the chosen installment period is always a member of the
category's allowed list (hence positive), so the period reaching the
affordability division is never zero. -/
theorem C9_period_safe :
    (∀ (asset_type : String) (req : Option Int),
      pick_installment_period asset_type req ∈ allowed_periods asset_type ∧
      0 < pick_installment_period asset_type req) ∧
    (∀ row : ApplicantRow, 0 < months row ∧ ((months row : ℚ) ≠ 0)) := by
  refine ⟨fun t req => ⟨pick_mem t req, pick_pos t req⟩,
    fun row => ⟨months_pos row, ?_⟩⟩
  exact_mod_cast (months_pos row).ne'

/-- C10: with no manual decision, the displayed decision is a function of
the stored dsr alone (records differing only in `ml_final_decision` and
the stored rule decision display the same outcome), and an absent dsr is
treated as 0.0, displaying Accepted. -/
theorem C10_display_noninterference (c1 c2 : CustomerRecord)
    (h1 : c1.manual_decision = none) (h2 : c2.manual_decision = none)
    (hd : c1.dsr = c2.dsr) :
    final_display c1 = final_display c2 ∧
    (c1.dsr = none → final_display c1 = some "Accepted") := by
  constructor
  · rw [final_display_manual_none c1 (Or.inl h1),
      final_display_manual_none c2 (Or.inl h2), hd]
  · intro hn
    rw [final_display_manual_none c1 (Or.inl h1), hn]
    show some (policy_decision_from_dsr 0) = some "Accepted"
    unfold policy_decision_from_dsr
    rw [if_neg (by norm_num), if_pos (by norm_num)]

/-- C10 witness: two records with no manual decision, the same dsr, but
different ml decisions and stored rule decisions display the same
outcome. -/
theorem C10_display_noninterference_witness :
    final_display { dsr := some (7 / 10), decision := some "Accepted",
                    ml_final_decision := some "Accepted", manual_decision := none } =
      final_display { dsr := some (7 / 10), decision := some "Rejected",
                      ml_final_decision := some "Review", manual_decision := none } :=
  (C10_display_noninterference
    { dsr := some (7 / 10), decision := some "Accepted",
      ml_final_decision := some "Accepted", manual_decision := none }
    { dsr := some (7 / 10), decision := some "Rejected",
      ml_final_decision := some "Review", manual_decision := none }
    rfl rfl rfl).1

/-- C1 counterexample: on a record whose dsr is absent, the code displays
"Accepted" (the policy decision of dsr treated as 0.0), while the claimed
precedence falls back to `ml_final_decision` ("Rejected" here) — the
displayed decision differs from the claimed one. -/
theorem C1_counterexample :
    final_display { dsr := none, decision := none,
                    ml_final_decision := some "Rejected", manual_decision := none } =
      some "Accepted" ∧
    finalize_spec none none (some "Rejected") none = some "Rejected" ∧
    final_display { dsr := none, decision := none,
                    ml_final_decision := some "Rejected", manual_decision := none } ≠
      finalize_spec none none (some "Rejected") none := by
  refine ⟨?_, rfl, ?_⟩
  · rw [final_display_manual_none _ (Or.inl rfl)]
    show some (policy_decision_from_dsr 0) = some "Accepted"
    unfold policy_decision_from_dsr
    rw [if_neg (by norm_num), if_pos (by norm_num)]
  · rw [final_display_manual_none _ (Or.inl rfl)]
    show some (policy_decision_from_dsr 0) ≠ some "Rejected"
    unfold policy_decision_from_dsr
    rw [if_neg (by norm_num), if_pos (by norm_num)]
    decide

/-- C1 (amended): a non-empty manual decision is displayed verbatim;
otherwise the display is the policy decision recomputed from the
persisted dsr with an absent dsr treated as 0.0 — the ml decision and the
stored rule decision are never consulted, because the policy decision is
always a non-empty string. -/
theorem C1_display_precedence (c : CustomerRecord) :
    (∀ m, c.manual_decision = some m → m ≠ "" → final_display c = some m) ∧
    ((c.manual_decision = none ∨ c.manual_decision = some "") →
      final_display c = some (policy_decision_from_dsr (c.dsr.getD 0))) := by
  constructor
  · intro m hm hne
    simp [final_display, py_str_or, hm, hne]
  · exact final_display_manual_none c

/-- C1 witness: a non-empty manual decision overrides a dsr that would
give Rejected. -/
theorem C1_display_precedence_witness :
    final_display { dsr := some (7 / 10), decision := some "Review",
                    ml_final_decision := some "Accepted", manual_decision := some "Accepted" } =
      some "Accepted" :=
  (C1_display_precedence _).1 "Accepted" rfl (by decide)

/-- C5 counterexample: the unrecognized asset type "boat" is normalized
to "Boat" — not to a known category and not to the claimed default
"Car" — and its requested period 84, although an exact member of Car's
allowed list, is snapped to 36 instead of being returned unchanged. -/
theorem C5_counterexample :
    normalize_asset_type (some "boat") = "Boat" ∧
    "Boat" ∉ (["Car", "House", "Equipment"] : List String) ∧
    pick_installment_period (normalize_asset_type (some "boat")) (some 84) = 36 ∧
    (84 : Int) ∈ allowed_periods "Car" ∧
    pick_installment_period (normalize_asset_type (some "boat")) (some 84) ≠ 84 := by
  refine ⟨?_, ?_, ?_, ?_, ?_⟩ <;> decide

/-- C5 (amended): only an absent asset_type falls back to "Car"; a
present unrecognized value is kept (trimmed and title-cased), its
allowed-period lookup falls back to the single-element list [36], and
the chosen period is then always 36, with no error raised. -/
theorem C5_unrecognized_fallback :
    normalize_asset_type none = "Car" ∧
    ∀ s : String, installment_options s = none →
      ∀ req : Option Int, pick_installment_period s req = 36 := by
  refine ⟨rfl, fun s hs req => ?_⟩
  have hA : allowed_periods s = [36] := by rw [allowed_periods, hs]; rfl
  cases req with
  | none =>
    show (allowed_periods s).headI = 36
    rw [hA]
    rfl
  | some r =>
    show (if r = 0 then (allowed_periods s).headI
      else if r ∈ allowed_periods s then r
      else nearest_allowed (allowed_periods s) r) = 36
    rw [hA]
    split_ifs with h0 hm
    · rfl
    · simpa using hm
    · rfl

/-- C5 witness: the unrecognized category "Boat" always yields period 36. -/
theorem C5_unrecognized_fallback_witness :
    pick_installment_period "Boat" (some 84) = 36 :=
  C5_unrecognized_fallback.2 "Boat" rfl (some 84)

/-- C4: an absent/unparseable request (including non-positive parses)
yields the smallest allowed period of the category; an exact member is
returned unchanged; otherwise the allowed value at minimum absolute
distance is returned, ties broken to the smaller candidate; in
particular Car with requested 50 gives 48. -/
theorem C4_pick_period (asset_type : String) :
    (pick_installment_period asset_type none = (allowed_periods asset_type).headI ∧
      ∀ a ∈ allowed_periods asset_type, (allowed_periods asset_type).headI ≤ a) ∧
    (∀ r : Int, r ≤ 0 →
      pick_installment_period asset_type (some r) = (allowed_periods asset_type).headI) ∧
    (∀ r : Int, r ∈ allowed_periods asset_type →
      pick_installment_period asset_type (some r) = r) ∧
    (∀ r : Int, 0 < r → r ∉ allowed_periods asset_type →
      pick_installment_period asset_type (some r) ∈ allowed_periods asset_type ∧
      (∀ a ∈ allowed_periods asset_type,
        (pick_installment_period asset_type (some r) - r).natAbs ≤ (a - r).natAbs) ∧
      (∀ a ∈ allowed_periods asset_type,
        (a - r).natAbs = (pick_installment_period asset_type (some r) - r).natAbs →
          pick_installment_period asset_type (some r) ≤ a)) ∧
    pick_installment_period "Car" (some 50) = 48 := by
  refine ⟨⟨rfl, sorted_headI_le _ (allowed_periods_sorted asset_type)⟩, ?_, ?_, ?_, by decide⟩
  · intro r hr
    show (if r = 0 then (allowed_periods asset_type).headI
      else if r ∈ allowed_periods asset_type then r
      else nearest_allowed (allowed_periods asset_type) r) = (allowed_periods asset_type).headI
    by_cases h0 : r = 0
    · rw [if_pos h0]
    · rw [if_neg h0]
      have hnm : r ∉ allowed_periods asset_type := fun hm => by
        have := allowed_periods_pos asset_type r hm
        omega
      rw [if_neg hnm]
      obtain ⟨b, rest, hb⟩ : ∃ b rest, allowed_periods asset_type = b :: rest := by
        rcases allowed_periods_eq asset_type with h | h | h | h <;> rw [h] <;>
          exact ⟨_, _, rfl⟩
      have hs := allowed_periods_sorted asset_type
      rw [hb] at hs ⊢
      have hbpos : 0 < b :=
        allowed_periods_pos asset_type b (by rw [hb]; exact List.mem_cons_self b rest)
      rw [nearest_allowed_head b rest hs r (by omega)]
      rfl
  · intro r hm
    have hrpos : 0 < r := allowed_periods_pos asset_type r hm
    show (if r = 0 then (allowed_periods asset_type).headI
      else if r ∈ allowed_periods asset_type then r
      else nearest_allowed (allowed_periods asset_type) r) = r
    rw [if_neg (by omega : ¬ r = 0), if_pos hm]
  · intro r hrpos hnm
    have hpick : pick_installment_period asset_type (some r) =
        nearest_allowed (allowed_periods asset_type) r := by
      show (if r = 0 then (allowed_periods asset_type).headI
        else if r ∈ allowed_periods asset_type then r
        else nearest_allowed (allowed_periods asset_type) r) = _
      rw [if_neg (by omega : ¬ r = 0), if_neg hnm]
    rw [hpick]
    exact ⟨nearest_allowed_mem _ (allowed_periods_ne_nil _) r,
      nearest_allowed_le _ r,
      nearest_allowed_tie _ (allowed_periods_sorted _) r⟩

/-- C4 witness: a negative parsed request yields the smallest Car period. -/
theorem C4_pick_period_witness :
    pick_installment_period "Car" (some (-3)) = (allowed_periods "Car").headI :=
  (C4_pick_period "Car").2.1 (-3) (by norm_num)

/-- C6: in the Review tier the suggestion list is, in order: always the
down-payment suggestion; the pay-off suggestion iff existing_loans > 0;
the reduce-expenses suggestion iff expenses > income/2; and, iff some
allowed period exceeds the current one, the suggestion to extend to the
smallest such longer period. -/
theorem C6_review_suggestions (row : ApplicantRow)
    (h1 : 45 / 100 < (process_customer_row row).dsr)
    (h2 : (process_customer_row row).dsr ≤ 60 / 100) :
    (process_customer_row row).suggestions =
      ["Consider increasing your down payment to reduce the monthly installment."]
      ++ (if row.existing_loans > 0
          then ["Pay off some existing loans to lower your total obligations."] else [])
      ++ (if row.expenses > (1 / 2 : ℚ) * row.income
          then ["Try to reduce your monthly expenses."] else [])
      ++ (if ((installment_options (asset_type_norm row)).getD [months row]).filter
              (fun m => months row < m) ≠ []
          then ["Consider extending the installment period to "
              ++ toString ((((installment_options (asset_type_norm row)).getD
                  [months row]).filter (fun m => months row < m)).headI) ++ " months."]
          else []) ∧
    (∀ m ∈ (installment_options (asset_type_norm row)).getD [months row],
      months row < m →
        (((installment_options (asset_type_norm row)).getD [months row]).filter
          (fun m => months row < m)).headI ≤ m) := by
  have h1' : ¬ dsr row ≤ 45 / 100 := not_le.mpr h1
  have h2' : dsr row ≤ 60 / 100 := h2
  constructor
  · show suggestions row = _
    rw [suggestions, if_neg h1', if_pos h2', review_suggestions]
    split_ifs <;> simp
  · intro m hm hlt2
    rcases ho : installment_options (asset_type_norm row) with _ | l
    · rw [ho] at hm
      simp at hm
      omega
    · rw [ho] at hm
      simp only [Option.getD_some] at hm ⊢
      have hsf : List.Sorted (· ≤ ·) (l.filter (fun m => months row < m)) :=
        List.Pairwise.filter _ (options_sorted _ l ho)
      exact sorted_headI_le _ hsf m (List.mem_filter.mpr ⟨hm, by simpa using hlt2⟩)

/-- C6 witness: a concrete Review-tier applicant (dsr = 0.5, no existing
loans, low expenses, Car over 36 months) gets exactly the unconditional
down-payment suggestion and the extend-to-48-months suggestion. -/
theorem C6_review_suggestions_witness :
    (process_customer_row
        ⟨"c6", "n", "g", 30, "j", "h", "f", 260, 0, 0, 3700, 100, some "Car", some 36⟩).suggestions =
      ["Consider increasing your down payment to reduce the monthly installment."]
      ++ (if (0:ℚ) > 0 then ["Pay off some existing loans to lower your total obligations."] else [])
      ++ (if (0:ℚ) > (1 / 2 : ℚ) * 260 then ["Try to reduce your monthly expenses."] else [])
      ++ (if ((installment_options (asset_type_norm
              ⟨"c6", "n", "g", 30, "j", "h", "f", 260, 0, 0, 3700, 100, some "Car", some 36⟩)).getD
              [months ⟨"c6", "n", "g", 30, "j", "h", "f", 260, 0, 0, 3700, 100, some "Car", some 36⟩]).filter
              (fun m => months ⟨"c6", "n", "g", 30, "j", "h", "f", 260, 0, 0, 3700, 100, some "Car", some 36⟩ < m) ≠ []
          then ["Consider extending the installment period to "
              ++ toString ((((installment_options (asset_type_norm
                  ⟨"c6", "n", "g", 30, "j", "h", "f", 260, 0, 0, 3700, 100, some "Car", some 36⟩)).getD
                  [months ⟨"c6", "n", "g", 30, "j", "h", "f", 260, 0, 0, 3700, 100, some "Car", some 36⟩]).filter
                  (fun m => months ⟨"c6", "n", "g", 30, "j", "h", "f", 260, 0, 0, 3700, 100, some "Car", some 36⟩ < m)).headI)
              ++ " months."]
          else []) :=
  by
  have hm : months ⟨"c6", "n", "g", 30, "j", "h", "f", 260, 0, 0, 3700, 100, some "Car", some 36⟩ = 36 := by
    decide
  have hd : dsr ⟨"c6", "n", "g", 30, "j", "h", "f", 260, 0, 0, 3700, 100, some "Car", some 36⟩ = 1 / 2 := by
    rw [dsr, if_pos (by norm_num), monthly_installment, total_cost, loan_amount, profit_rate, hm]
    norm_num
  exact (C6_review_suggestions _
    (by show (45 / 100 : ℚ) <
          dsr ⟨"c6", "n", "g", 30, "j", "h", "f", 260, 0, 0, 3700, 100, some "Car", some 36⟩
        rw [hd]; norm_num)
    (by show dsr ⟨"c6", "n", "g", 30, "j", "h", "f", 260, 0, 0, 3700, 100, some "Car", some 36⟩ ≤
          (60 / 100 : ℚ)
        rw [hd]; norm_num)).1

/-- C7: in the Rejected tier the suggestion list is, in order: the
pay-off suggestion iff existing_loans > 0; the increase-income
suggestion iff income < (existing_loans + monthly_installment) / 0.58;
always the down-payment suggestion; and, iff the longest allowed period
of the category exceeds the current one, the suggestion to extend to
that longest period. -/
theorem C7_rejected_suggestions (row : ApplicantRow)
    (h : 60 / 100 < (process_customer_row row).dsr) :
    (process_customer_row row).suggestions =
      (if row.existing_loans > 0 then ["Pay off existing loans to reduce your DSR."] else [])
      ++ (if row.income <
            (row.existing_loans + monthly_installment row) / (58 / 100 : ℚ)
          then ["Increase your net monthly income."] else [])
      ++ ["Increase your down payment to reduce the financed amount."]
      ++ (if months row <
            list_max ((installment_options (asset_type_norm row)).getD [months row])
          then ["Consider extending the installment period to "
              ++ toString (list_max ((installment_options (asset_type_norm row)).getD
                  [months row])) ++ " months."]
          else []) ∧
    (∀ m ∈ (installment_options (asset_type_norm row)).getD [months row],
      m ≤ list_max ((installment_options (asset_type_norm row)).getD [months row])) := by
  have h' : ¬ dsr row ≤ 60 / 100 := not_le.mpr h
  have h1' : ¬ dsr row ≤ 45 / 100 := by
    intro hc
    exact h' (le_trans hc (by norm_num))
  constructor
  · show suggestions row = _
    rw [suggestions, if_neg h1', if_neg h', rejected_suggestions]
    split_ifs <;> simp
  · intro m hm
    rcases ho : installment_options (asset_type_norm row) with _ | l
    · rw [ho] at hm
      simp at hm
      rw [hm]
      simp [list_max]
    · rw [ho] at hm
      simp only [Option.getD_some] at hm ⊢
      exact list_max_le l (options_ne_nil _ l ho) m hm

/-- C7 witness: a concrete Rejected-tier applicant (dsr = 1.3) gets the
increase-income suggestion, the down-payment suggestion, and the
extend-to-longest-period suggestion. -/
theorem C7_rejected_suggestions_witness :
    (process_customer_row
        ⟨"c7", "n", "g", 30, "j", "h", "f", 100, 0, 0, 3700, 100, some "Car", some 36⟩).suggestions =
      (if (0:ℚ) > 0 then ["Pay off existing loans to reduce your DSR."] else [])
      ++ (if (100:ℚ) <
            ((0:ℚ) + monthly_installment
              ⟨"c7", "n", "g", 30, "j", "h", "f", 100, 0, 0, 3700, 100, some "Car", some 36⟩)
            / (58 / 100 : ℚ)
          then ["Increase your net monthly income."] else [])
      ++ ["Increase your down payment to reduce the financed amount."]
      ++ (if months ⟨"c7", "n", "g", 30, "j", "h", "f", 100, 0, 0, 3700, 100, some "Car", some 36⟩ <
            list_max ((installment_options (asset_type_norm
              ⟨"c7", "n", "g", 30, "j", "h", "f", 100, 0, 0, 3700, 100, some "Car", some 36⟩)).getD
              [months ⟨"c7", "n", "g", 30, "j", "h", "f", 100, 0, 0, 3700, 100, some "Car", some 36⟩])
          then ["Consider extending the installment period to "
              ++ toString (list_max ((installment_options (asset_type_norm
                  ⟨"c7", "n", "g", 30, "j", "h", "f", 100, 0, 0, 3700, 100, some "Car", some 36⟩)).getD
                  [months ⟨"c7", "n", "g", 30, "j", "h", "f", 100, 0, 0, 3700, 100, some "Car", some 36⟩]))
              ++ " months."]
          else []) :=
  by
  have hm : months ⟨"c7", "n", "g", 30, "j", "h", "f", 100, 0, 0, 3700, 100, some "Car", some 36⟩ = 36 := by
    decide
  have hd : dsr ⟨"c7", "n", "g", 30, "j", "h", "f", 100, 0, 0, 3700, 100, some "Car", some 36⟩ = 13 / 10 := by
    rw [dsr, if_pos (by norm_num), monthly_installment, total_cost, loan_amount, profit_rate, hm]
    norm_num
  exact (C7_rejected_suggestions _
    (by show (60 / 100 : ℚ) <
          dsr ⟨"c7", "n", "g", 30, "j", "h", "f", 100, 0, 0, 3700, 100, some "Car", some 36⟩
        rw [hd]; norm_num)).1

/-- C8 counterexample: with income = 0 (the claim does not require a
positive income) the dsr is pinned at the sentinel 1.0, so increasing the
down payment from 10 to 20 — with the loan amount still positive — does
not strictly decrease the dsr. -/
theorem C8_counterexample :
    (⟨"c8", "n", "g", 30, "j", "h", "f", 0, 0, 0, 100, 10, some "Car", some 36⟩ : ApplicantRow).down_payment <
      (⟨"c8", "n", "g", 30, "j", "h", "f", 0, 0, 0, 100, 20, some "Car", some 36⟩ : ApplicantRow).down_payment ∧
    0 < loan_amount ⟨"c8", "n", "g", 30, "j", "h", "f", 0, 0, 0, 100, 20, some "Car", some 36⟩ ∧
    dsr ⟨"c8", "n", "g", 30, "j", "h", "f", 0, 0, 0, 100, 10, some "Car", some 36⟩ = 1 ∧
    dsr ⟨"c8", "n", "g", 30, "j", "h", "f", 0, 0, 0, 100, 20, some "Car", some 36⟩ = 1 ∧
    ¬ dsr ⟨"c8", "n", "g", 30, "j", "h", "f", 0, 0, 0, 100, 20, some "Car", some 36⟩ <
      dsr ⟨"c8", "n", "g", 30, "j", "h", "f", 0, 0, 0, 100, 10, some "Car", some 36⟩ := by
  refine ⟨by norm_num, by norm_num [loan_amount], by norm_num [dsr], by norm_num [dsr],
    by norm_num [dsr]⟩

/-- C8 (amended): with the additional hypothesis income > 0 (without it
the dsr is the constant sentinel 1.0), increasing the down payment, all
other fields fixed and the loan amount positive, strictly decreases the
dsr. -/
theorem C8_dsr_monotone (row : ApplicantRow) (d1 d2 : ℚ)
    (hinc : 0 < row.income) (h12 : d1 < d2)
    (hloan : 0 < row.asset_value - d2) :
    dsr { row with down_payment := d2 } < dsr { row with down_payment := d1 } := by
  have hmpos : (0:ℚ) < ((months row : ℚ)) := by exact_mod_cast months_pos row
  have hc : (0:ℚ) < 1 + profit_rate * ((months row : ℚ) / 12) := by
    rw [profit_rate]
    nlinarith
  have hmi : monthly_installment { row with down_payment := d2 } <
      monthly_installment { row with down_payment := d1 } := by
    show (row.asset_value - d2) * (1 + profit_rate * ((months row : ℚ) / 12)) / (months row : ℚ) <
      (row.asset_value - d1) * (1 + profit_rate * ((months row : ℚ) / 12)) / (months row : ℚ)
    exact div_lt_div_of_pos_right
      (mul_lt_mul_of_pos_right (sub_lt_sub_left h12 row.asset_value) hc) hmpos
  show (if row.income > 0
      then (row.existing_loans + monthly_installment { row with down_payment := d2 }) / row.income
      else 1) <
    (if row.income > 0
      then (row.existing_loans + monthly_installment { row with down_payment := d1 }) / row.income
      else 1)
  rw [if_pos hinc, if_pos hinc]
  exact div_lt_div_of_pos_right (add_lt_add_left hmi row.existing_loans) hinc

/-- C8 witness: for a concrete positive-income applicant, raising the
down payment from 10 to 20 strictly lowers the dsr. -/
theorem C8_dsr_monotone_witness :
    dsr { (⟨"c8w", "n", "g", 30, "j", "h", "f", 1000, 0, 0, 100, 0, some "Car", some 36⟩ : ApplicantRow)
      with down_payment := 20 } <
    dsr { (⟨"c8w", "n", "g", 30, "j", "h", "f", 1000, 0, 0, 100, 0, some "Car", some 36⟩ : ApplicantRow)
      with down_payment := 10 } :=
  C8_dsr_monotone _ 10 20 (by norm_num) (by norm_num) (by norm_num)

end Credit
